import Mathlib

/-!
Shallow embedding of `ntn_dongle_fw_update.py`, the firmware-update
orchestrator for the NTN Modbus dongle.

The low-level Modbus transport (`modbus_tk`), the serial port, and the
external `pymdfu` transfer process are external collaborators; they are
modelled as oracles (`Device`, `World`).  Every transport-level action the
program performs is recorded as an `Event`, so that claims about which
operations are issued, and in which order, can be stated as facts about
the event trace.

Exceptions raised by the Python code are modelled with `Except`; exceptions
that the source catches and converts to sentinels (`None` / `False`) are
modelled by the oracle returning `none` / `false`.
-/

/-- One observable transport-level action of the program:
establishing the Modbus connection, a register read or write, closing the
connection, a blocking sleep (in milliseconds), or spawning the external
transfer process with a concrete argument list. -/
inductive Event where
  | connect : Event
  | read (reg : Nat) (num : Nat) : Event
  | writeMulti (reg : Nat) (vals : List Nat) : Event
  | writeSingle (reg : Nat) (val : Nat) : Event
  | closeConn : Event
  | sleepMs (ms : Nat) : Event
  | invokeTransfer (cmd : List String) : Event
  deriving DecidableEq, Repr

/-- Oracle for the device together with its Modbus transport.
`connectOk` says whether `NTNModbusMaster.__init__` succeeds;
`readResult reg num` is what `master.execute` returns for a read of `num`
registers at `reg` (`none` = the call raises); `writeMultiOk` /
`writeSingleOk` say whether the corresponding `master.execute` write call
returns normally (`false` = it raises). -/
structure Device where
  connectOk : Bool
  readResult : Nat → Nat → Option (List Nat)
  writeMultiOk : Nat → List Nat → Bool
  writeSingleOk : Nat → Nat → Bool

/-- `NTNModbusMaster.read_register`: executes a 1-register read; returns
`value[0]` when it is non-zero, `None` when it is zero or when the
transport raises (every exception is caught). -/
def read_register (d : Device) (reg : Nat) : Option Nat × List Event :=
  (match d.readResult reg 1 with
    | none => none
    | some [] => none
    | some (v :: _) => if v ≠ 0 then some v else none,
   [Event.read reg 1])

/-- `NTNModbusMaster.read_registers`: executes a `num`-register read;
returns the values unless all of them are zero, in which case `None`;
`None` also when the transport raises. -/
def read_registers (d : Device) (reg : Nat) (num : Nat) : Option (List Nat) × List Event :=
  (match d.readResult reg num with
    | none => none
    | some values => if ∀ x ∈ values, x = 0 then none else some values,
   [Event.read reg num])

/-- `NTNModbusMaster.set_registers`: when `val is None` returns `False`
without touching the transport; otherwise issues a write-multiple and
returns `True` exactly when the transport call returns normally. -/
def set_registers (d : Device) (reg : Nat) (val : Option (List Nat)) : Bool × List Event :=
  match val with
  | none => (false, [])
  | some v => (d.writeMultiOk reg v, [Event.writeMulti reg v])

/-- `NTNModbusMaster.set_register`: when `val is None` returns `False`
without touching the transport; otherwise issues a write-single and
returns `True` exactly when the transport call returns normally. -/
def set_register (d : Device) (reg : Nat) (val : Option Nat) : Bool × List Event :=
  match val with
  | none => (false, [])
  | some v => (d.writeSingleOk reg v, [Event.writeSingle reg v])

/-- `NTNModbusMaster.close`: closes the Modbus connection; any exception is
caught and logged, so the method only contributes the close event. -/
def close (_d : Device) : List Event :=
  [Event.closeConn]

/-- Operator input, as produced by `parse_arguments`. -/
structure Args where
  image : String
  port : String
  dev_id : Nat
  retry : Bool

/-- Result of `find_pymdfu_executable`: either a path/name of an executable
(a Python string) or a module invocation (a Python list such as
`[sys.executable, "-m", "pymdfu"]`). -/
inductive PymdfuCmd where
  | exe (path : String) : PymdfuCmd
  | moduleRun (argv : List String) : PymdfuCmd
  deriving DecidableEq, Repr

/-- Oracle for the environment outside the device: which `pymdfu`
invocation `find_pymdfu_executable` resolves to, and the exit status the
spawned transfer process returns for a given command line. -/
structure World where
  pymdfuCmd : PymdfuCmd
  exitCode : List String → Int

/-- Errors that `run_firmware_update` can raise: `ValueError` for a
missing image path, the connection-establishment exception, the
`RuntimeError` on password failure, and `subprocess.CalledProcessError`
carrying the child's return code and command. -/
inductive FwError where
  | valueError (msg : String)
  | connectionError
  | runtimeError (msg : String)
  | calledProcessError (returncode : Int) (cmd : List String)
  deriving DecidableEq, Repr

/-- The command list built in `run_firmware_update` (lines 176-194):
the resolved `pymdfu` invocation followed by
`update --tool serial --port <port> --baudrate 115200 --image <image> -v debug`. -/
def build_command (cmd : PymdfuCmd) (port : String) (image : String) : List String :=
  match cmd with
  | PymdfuCmd.moduleRun argv =>
      argv ++ ["update", "--tool", "serial", "--port", port,
        "--baudrate", "115200", "--image", image, "-v", "debug"]
  | PymdfuCmd.exe s =>
      [s, "update", "--tool", "serial", "--port", port,
        "--baudrate", "115200", "--image", image, "-v", "debug"]

/-- The transfer-invocation tail of `run_firmware_update` (lines 173-209):
build the command, spawn the process, relay its output, and raise
`CalledProcessError` exactly when the child's return code is non-zero. -/
def invoke_transfer (args : Args) (w : World) : Except FwError Unit × List Event :=
  let command := build_command w.pymdfuCmd args.port args.image
  let rc := w.exitCode command
  (if rc ≠ 0 then Except.error (FwError.calledProcessError rc command) else Except.ok (),
   [Event.invokeTransfer command])

/-- `run_firmware_update`: raises `ValueError` when the image path is
empty; in fresh (non-retry) mode connects, clears the password block
(four zero words at `0x0000`), aborts with `RuntimeError` unless that
write confirmed, then unconditionally writes the engineering-mode,
bootloader-mode and reset sentinels, sleeps, closes the connection,
sleeps again; in retry mode only sleeps; both paths end by invoking the
external transfer process. -/
def run_firmware_update (args : Args) (d : Device) (w : World) :
    Except FwError Unit × List Event :=
  if args.image = "" then
    (Except.error (FwError.valueError "Missing firmware image file path"), [])
  else if args.retry = false then
    if d.connectOk = false then
      (Except.error FwError.connectionError, [Event.connect])
    else
      let pw := set_registers d 0x0000 (some [0, 0, 0, 0])
      if pw.1 = false then
        (Except.error (FwError.runtimeError "Failed to set password or password invalid."),
          Event.connect :: pw.2)
      else
        let e1 := set_register d 0xFFD0 (some 0xAA55)
        let e2 := set_register d 0xD000 (some 0xAA55)
        let e3 := set_register d 0xFD00 (some 0xAA55)
        let tr := invoke_transfer args w
        (tr.1,
          Event.connect :: pw.2 ++ e1.2 ++ e2.2 ++ e3.2
            ++ [Event.sleepMs 1000] ++ close d ++ [Event.sleepMs 500] ++ tr.2)
  else
    let tr := invoke_transfer args w
    (tr.1, Event.sleepMs 500 :: tr.2)

/-- Recognises register-write events (single or multiple). -/
def isWriteEvent : Event → Bool
  | Event.writeMulti _ _ => true
  | Event.writeSingle _ _ => true
  | _ => false

/-- The register writes of a trace, in order. -/
def writeEvents (t : List Event) : List Event :=
  t.filter isWriteEvent

/-- Sample operator input for a fresh attempt. -/
def argsFresh : Args :=
  { image := "fw.bin", port := "/dev/ttyUSB0", dev_id := 1, retry := false }

/-- Sample operator input for a retry attempt. -/
def argsRetry : Args :=
  { image := "fw.bin", port := "/dev/ttyUSB0", dev_id := 1, retry := true }

/-- Sample device that accepts the connection and every write. -/
def devAccept : Device :=
  { connectOk := true, readResult := fun _ _ => none,
    writeMultiOk := fun _ _ => true, writeSingleOk := fun _ _ => true }

/-- Sample device that accepts the connection but rejects (raises on)
every write-multiple, in particular the password-clear write. -/
def devRejectPasswd : Device :=
  { connectOk := true, readResult := fun _ _ => none,
    writeMultiOk := fun _ _ => false, writeSingleOk := fun _ _ => true }

/-- Sample device whose reads always return all-zero register blocks. -/
def devZeroReads : Device :=
  { connectOk := true, readResult := fun _ num => some (List.replicate num 0),
    writeMultiOk := fun _ _ => true, writeSingleOk := fun _ _ => true }

/-- Sample environment: `pymdfu` resolved on PATH, transfer exits 0. -/
def worldOk : World :=
  { pymdfuCmd := PymdfuCmd.exe "pymdfu", exitCode := fun _ => 0 }

/-- Sample environment: `pymdfu` resolved on PATH, transfer exits 3. -/
def worldExit3 : World :=
  { pymdfuCmd := PymdfuCmd.exe "pymdfu", exitCode := fun _ => 3 }

/-- C5: a write operation (`set_register` or `set_registers`) whose
value/values argument is `None` returns `false` and performs no transport
write (its event trace is empty). -/
theorem write_absent_value_noop (d : Device) (reg : Nat) :
    set_registers d reg none = (false, []) ∧ set_register d reg none = (false, []) :=
  ⟨rfl, rfl⟩

/-- C8 counterexample: on a device whose transport accepts every write,
`set_registers` with an empty payload returns `true` and does issue a
transport write, contradicting the claim that an empty payload is a no-op
returning `false`. -/
theorem empty_payload_write_counterexample :
    (set_registers devAccept 0x0000 (some [])).1 = true ∧
    (set_registers devAccept 0x0000 (some [])).2 = [Event.writeMulti 0x0000 []] :=
  ⟨rfl, rfl⟩

/-- C8 amended: only an absent (`None`) payload is special-cased; an empty
sequence is forwarded to the transport as a write-multiple of zero words,
and the call returns `true` exactly when the transport call returns
normally. -/
theorem empty_payload_write_forwarded (d : Device) (reg : Nat) :
    set_registers d reg (some []) = (d.writeMultiOk reg [], [Event.writeMulti reg []]) :=
  rfl

/-- C9: a write whose value is zero (or whose payload is the four zero
words of the password-clear) is not treated as absent: the transport write
is issued and the result is exactly the transport's verdict, so the call
returns `true` on transport success. -/
theorem zero_value_write_performed (d : Device) (reg : Nat) :
    set_register d reg (some 0) = (d.writeSingleOk reg 0, [Event.writeSingle reg 0]) ∧
    set_registers d reg (some [0, 0, 0, 0]) =
      (d.writeMultiOk reg [0, 0, 0, 0], [Event.writeMulti reg [0, 0, 0, 0]]) :=
  ⟨rfl, rfl⟩

/-- C7: when the image path is empty, `run_firmware_update` raises the
usage fault (`ValueError`) immediately: the result is the error and the
event trace is empty, so no connection, register operation, or transfer
invocation occurs, in fresh and retry mode alike. -/
theorem missing_image_usage_fault (args : Args) (d : Device) (w : World)
    (himg : args.image = "") :
    run_firmware_update args d w =
      (Except.error (FwError.valueError "Missing firmware image file path"), []) := by
  simp [run_firmware_update, himg]

/-- C7 witness: concrete empty-image invocation in fresh mode. -/
theorem missing_image_usage_fault_witness :
    run_firmware_update { image := "", port := "/dev/ttyUSB0", dev_id := 1, retry := false }
        devAccept worldOk =
      (Except.error (FwError.valueError "Missing firmware image file path"), []) :=
  missing_image_usage_fault
    { image := "", port := "/dev/ttyUSB0", dev_id := 1, retry := false } devAccept worldOk rfl

/-- C4: the command built for the external transfer process always
contains `--tool serial`, `--baudrate 115200`, and `--image` followed by
exactly the operator-supplied image path; and the transfer step succeeds
when the child exits 0 and otherwise raises `CalledProcessError` carrying
the child's exit code. -/
theorem transfer_invocation_contract (args : Args) (w : World) :
    (∃ l r, build_command w.pymdfuCmd args.port args.image =
      l ++ ["--tool", "serial"] ++ r) ∧
    (∃ l r, build_command w.pymdfuCmd args.port args.image =
      l ++ ["--baudrate", "115200"] ++ r) ∧
    (∃ l r, build_command w.pymdfuCmd args.port args.image =
      l ++ ["--image", args.image] ++ r) ∧
    (invoke_transfer args w).1 =
      (if w.exitCode (build_command w.pymdfuCmd args.port args.image) = 0 then
        Except.ok ()
      else
        Except.error (FwError.calledProcessError
          (w.exitCode (build_command w.pymdfuCmd args.port args.image))
          (build_command w.pymdfuCmd args.port args.image))) := by
  refine ⟨?_, ?_, ?_, ?_⟩
  · cases h : w.pymdfuCmd with
    | exe s =>
        exact ⟨[s, "update"],
          ["--port", args.port, "--baudrate", "115200",
            "--image", args.image, "-v", "debug"], by simp [build_command]⟩
    | moduleRun argv =>
        exact ⟨argv ++ ["update"],
          ["--port", args.port, "--baudrate", "115200",
            "--image", args.image, "-v", "debug"], by simp [build_command]⟩
  · cases h : w.pymdfuCmd with
    | exe s =>
        exact ⟨[s, "update", "--tool", "serial", "--port", args.port],
          ["--image", args.image, "-v", "debug"], by simp [build_command]⟩
    | moduleRun argv =>
        exact ⟨argv ++ ["update", "--tool", "serial", "--port", args.port],
          ["--image", args.image, "-v", "debug"], by simp [build_command]⟩
  · cases h : w.pymdfuCmd with
    | exe s =>
        exact ⟨[s, "update", "--tool", "serial", "--port", args.port,
          "--baudrate", "115200"], ["-v", "debug"], by simp [build_command]⟩
    | moduleRun argv =>
        exact ⟨argv ++ ["update", "--tool", "serial", "--port", args.port,
          "--baudrate", "115200"], ["-v", "debug"], by simp [build_command]⟩
  · by_cases h : w.exitCode (build_command w.pymdfuCmd args.port args.image) = 0 <;>
      simp [invoke_transfer, h]

/-- C1: in a fresh attempt where the password-clear write does not return
`true`, `run_firmware_update` aborts with the authentication
`RuntimeError`; its trace consists of the connection and the password
write only, so none of the three subsequent single-register writes is
issued and no transfer invocation occurs. -/
theorem unlock_password_failure_aborts (args : Args) (d : Device) (w : World)
    (himg : args.image ≠ "") (hretry : args.retry = false)
    (hconn : d.connectOk = true)
    (hpw : d.writeMultiOk 0x0000 [0, 0, 0, 0] = false) :
    run_firmware_update args d w =
      (Except.error (FwError.runtimeError "Failed to set password or password invalid."),
        [Event.connect, Event.writeMulti 0x0000 [0, 0, 0, 0]]) ∧
    (∀ r v, Event.writeSingle r v ∉ (run_firmware_update args d w).2) ∧
    (∀ c, Event.invokeTransfer c ∉ (run_firmware_update args d w).2) := by
  have h : run_firmware_update args d w =
      (Except.error (FwError.runtimeError "Failed to set password or password invalid."),
        [Event.connect, Event.writeMulti 0x0000 [0, 0, 0, 0]]) := by
    simp [run_firmware_update, himg, hretry, hconn, hpw, set_registers]
  refine ⟨h, ?_, ?_⟩
  · intro r v
    rw [h]
    simp
  · intro c
    rw [h]
    simp

/-- C1 witness: fresh attempt on a device that rejects the password-clear
write. -/
theorem unlock_password_failure_aborts_witness :
    run_firmware_update argsFresh devRejectPasswd worldOk =
      (Except.error (FwError.runtimeError "Failed to set password or password invalid."),
        [Event.connect, Event.writeMulti 0x0000 [0, 0, 0, 0]]) ∧
    (∀ r v, Event.writeSingle r v ∉ (run_firmware_update argsFresh devRejectPasswd worldOk).2) ∧
    (∀ c, Event.invokeTransfer c ∉ (run_firmware_update argsFresh devRejectPasswd worldOk).2) :=
  unlock_password_failure_aborts argsFresh devRejectPasswd worldOk (by decide) rfl rfl rfl

/-- C2: in a fresh attempt where the password-clear write returns `true`,
the register writes issued are exactly the four writes of the unlock
sequence, in order: password-clear (four zero words at `0x0000`), then
engineering mode (`0xAA55` at `0xFFD0`), bootloader mode (`0xAA55` at
`0xD000`), reset (`0xAA55` at `0xFD00`).  The statement holds for every
`writeSingleOk` oracle, so the last three writes are issued regardless of
the success of the preceding non-password writes. -/
theorem fresh_unlock_write_order (args : Args) (d : Device) (w : World)
    (himg : args.image ≠ "") (hretry : args.retry = false)
    (hconn : d.connectOk = true)
    (hpw : d.writeMultiOk 0x0000 [0, 0, 0, 0] = true) :
    writeEvents (run_firmware_update args d w).2 =
      [Event.writeMulti 0x0000 [0, 0, 0, 0],
       Event.writeSingle 0xFFD0 0xAA55,
       Event.writeSingle 0xD000 0xAA55,
       Event.writeSingle 0xFD00 0xAA55] := by
  simp [run_firmware_update, himg, hretry, hconn, hpw, set_registers, set_register,
    invoke_transfer, close, writeEvents, isWriteEvent]

/-- C2 witness: fresh attempt on a device that accepts every write. -/
theorem fresh_unlock_write_order_witness :
    writeEvents (run_firmware_update argsFresh devAccept worldOk).2 =
      [Event.writeMulti 0x0000 [0, 0, 0, 0],
       Event.writeSingle 0xFFD0 0xAA55,
       Event.writeSingle 0xD000 0xAA55,
       Event.writeSingle 0xFD00 0xAA55] :=
  fresh_unlock_write_order argsFresh devAccept worldOk (by decide) rfl rfl rfl

/-- C3: in retry mode with a non-empty image path, the trace is exactly a
settle sleep followed by the external transfer invocation: no connection
is established and no register read or write is issued, whatever the
device oracle would answer. -/
theorem retry_mode_no_device_io (args : Args) (d : Device) (w : World)
    (himg : args.image ≠ "") (hretry : args.retry = true) :
    run_firmware_update args d w =
      ((invoke_transfer args w).1,
        [Event.sleepMs 500,
         Event.invokeTransfer (build_command w.pymdfuCmd args.port args.image)]) ∧
    Event.connect ∉ (run_firmware_update args d w).2 ∧
    (∀ r n, Event.read r n ∉ (run_firmware_update args d w).2) ∧
    (∀ r v, Event.writeMulti r v ∉ (run_firmware_update args d w).2) ∧
    (∀ r v, Event.writeSingle r v ∉ (run_firmware_update args d w).2) := by
  have h : run_firmware_update args d w =
      ((invoke_transfer args w).1,
        [Event.sleepMs 500,
         Event.invokeTransfer (build_command w.pymdfuCmd args.port args.image)]) := by
    simp [run_firmware_update, himg, hretry, invoke_transfer]
  refine ⟨h, ?_, ?_, ?_, ?_⟩
  · rw [h]; simp
  · intro r n; rw [h]; simp
  · intro r v; rw [h]; simp
  · intro r v; rw [h]; simp

/-- C3 witness: concrete retry attempt. -/
theorem retry_mode_no_device_io_witness :
    run_firmware_update argsRetry devAccept worldOk =
      ((invoke_transfer argsRetry worldOk).1,
        [Event.sleepMs 500,
         Event.invokeTransfer
           (build_command worldOk.pymdfuCmd argsRetry.port argsRetry.image)]) ∧
    Event.connect ∉ (run_firmware_update argsRetry devAccept worldOk).2 ∧
    (∀ r n, Event.read r n ∉ (run_firmware_update argsRetry devAccept worldOk).2) ∧
    (∀ r v, Event.writeMulti r v ∉ (run_firmware_update argsRetry devAccept worldOk).2) ∧
    (∀ r v, Event.writeSingle r v ∉ (run_firmware_update argsRetry devAccept worldOk).2) :=
  retry_mode_no_device_io argsRetry devAccept worldOk (by decide) rfl

/-- C10: when a fresh attempt aborts because the password-clear write
fails, the connection close is never reached: the trace of the aborted
run contains no close event. -/
theorem auth_failure_skips_close (args : Args) (d : Device) (w : World)
    (himg : args.image ≠ "") (hretry : args.retry = false)
    (hconn : d.connectOk = true)
    (hpw : d.writeMultiOk 0x0000 [0, 0, 0, 0] = false) :
    (run_firmware_update args d w).1 =
      Except.error (FwError.runtimeError "Failed to set password or password invalid.") ∧
    Event.closeConn ∉ (run_firmware_update args d w).2 := by
  have h : run_firmware_update args d w =
      (Except.error (FwError.runtimeError "Failed to set password or password invalid."),
        [Event.connect, Event.writeMulti 0x0000 [0, 0, 0, 0]]) := by
    simp [run_firmware_update, himg, hretry, hconn, hpw, set_registers]
  rw [h]
  simp

/-- C10 witness: concrete fresh attempt with rejected password write. -/
theorem auth_failure_skips_close_witness :
    (run_firmware_update argsFresh devRejectPasswd worldExit3).1 =
      Except.error (FwError.runtimeError "Failed to set password or password invalid.") ∧
    Event.closeConn ∉ (run_firmware_update argsFresh devRejectPasswd worldExit3).2 :=
  auth_failure_skips_close argsFresh devRejectPasswd worldExit3 (by decide) rfl rfl rfl

/-- C6: a read operation returns absent (`none`) both when the transport
raises and when every returned register value is zero; otherwise the
value(s) are passed through unchanged (a read result is always either
absent or exactly what the transport returned, so no exception escapes to
the caller); for the single-register read the rule applies to its one
returned value. -/
theorem read_fault_or_zero_absent (d : Device) (reg : Nat) (num : Nat) :
    (d.readResult reg num = none → (read_registers d reg num).1 = none) ∧
    (∀ vs, d.readResult reg num = some vs →
      ((∀ x ∈ vs, x = 0) → (read_registers d reg num).1 = none) ∧
      ((∃ x ∈ vs, x ≠ 0) → (read_registers d reg num).1 = some vs)) ∧
    ((read_registers d reg num).1 = none ∨
      (read_registers d reg num).1 = d.readResult reg num) ∧
    (d.readResult reg 1 = none → (read_register d reg).1 = none) ∧
    (∀ v, d.readResult reg 1 = some [v] →
      (v = 0 → (read_register d reg).1 = none) ∧
      (v ≠ 0 → (read_register d reg).1 = some v)) := by
  refine ⟨?_, ?_, ?_, ?_, ?_⟩
  · intro h
    simp [read_registers, h]
  · intro vs h
    constructor
    · intro hz
      simp only [read_registers, h]
      rw [if_pos hz]
    · rintro ⟨x, hx, hxne⟩
      have hnall : ¬ ∀ y ∈ vs, y = 0 := fun hall => hxne (hall x hx)
      simp [read_registers, h, hnall]
  · cases h : d.readResult reg num with
    | none => left; simp [read_registers, h]
    | some vs =>
        by_cases hz : ∀ x ∈ vs, x = 0
        · left
          simp only [read_registers, h]
          rw [if_pos hz]
        · right; simp [read_registers, h, hz]
  · intro h
    simp [read_register, h]
  · intro v h
    constructor
    · intro hz
      simp [read_register, h, hz]
    · intro hnz
      simp [read_register, h, hnz]

/-- C6 witness: a device whose reads return all-zero blocks yields absent
on a concrete multi-register read. -/
theorem read_fault_or_zero_absent_witness :
    (read_registers devZeroReads 0x0100 4).1 = none :=
  ((read_fault_or_zero_absent devZeroReads 0x0100 4).2.1 (List.replicate 4 0) rfl).1
    (by decide)
